import Mathlib

/-!
Shallow embedding of the Universal-video-downloader server
(`server/index.js`): platform detection, the in-memory platform cookie
store, the yt-dlp cookie selection, the per-backend artifact size
validation, the file-serving endpoint, the probe-status classification,
the cookie submit/status endpoints, and the `/api/download` fallback
orchestrator.  External effects (subprocess results, the Cobalt API,
the Firebase cookie backend) are modelled as oracle inputs supplied in
a `DownloadEnv`; everything else follows the JavaScript source line by
line.
-/

namespace UVD

/-! ### Substring tests (JavaScript `String.prototype.includes`) -/

/-- Does the character list start with the given pattern? -/
def hasPrefixChars : List Char → List Char → Bool
  | _, [] => true
  | [], _ :: _ => false
  | c :: cs, p :: ps => c == p && hasPrefixChars cs ps

/-- Does the character list contain the pattern as a contiguous substring? -/
def containsSub : List Char → List Char → Bool
  | [], pat => pat.isEmpty
  | c :: cs, pat => hasPrefixChars (c :: cs) pat || containsSub cs pat

/-- `url.includes(pat)` from JavaScript, on a URL given as a character list. -/
def strContains (s : List Char) (pat : String) : Bool :=
  containsSub s pat.toList

/-- `url.includes('instagram.com')` — used in `detectPlatformFromUrl`,
`downloadWithYtdlp` and the `/api/download` handler. -/
def isInstagramUrl (url : List Char) : Bool :=
  strContains url "instagram.com"

/-- `url.includes('twitter.com') || url.includes('x.com')`. -/
def isTwitterUrl (url : List Char) : Bool :=
  strContains url "twitter.com" || strContains url "x.com"

/-- `url.includes('youtube.com') || url.includes('youtu.be')`. -/
def isYoutubeUrl (url : List Char) : Bool :=
  strContains url "youtube.com" || strContains url "youtu.be"

/-- `detectPlatformFromUrl` (server/index.js lines 340-347). -/
def detectPlatformFromUrl (url : List Char) : String :=
  if strContains url "instagram.com" then "instagram"
  else if strContains url "youtube.com" || strContains url "youtu.be" then "youtube"
  else if strContains url "twitter.com" || strContains url "x.com" then "twitter"
  else if strContains url "tiktok.com" then "tiktok"
  else if strContains url "linkedin.com" then "linkedin"
  else "unknown"

/-! ### Platform cookie store -/

/-- The three platforms that have entries in `platformCookies`. -/
inductive Platform
  | instagram
  | twitter
  | youtube
deriving DecidableEq

/-- One entry of the `platformCookies` map: `{cookies, syncedAt, expiresAt}`.
`none` models JavaScript `null`; timestamps are `Date.now()` milliseconds. -/
structure CookieEntry where
  cookies : Option String
  syncedAt : Option Nat
  expiresAt : Option Nat
deriving DecidableEq

/-- The initial `{cookies: null, syncedAt: null, expiresAt: null}` entry. -/
def emptyEntry : CookieEntry := ⟨none, none, none⟩

/-- The whole `platformCookies` object. -/
structure Store where
  instagram : CookieEntry
  twitter : CookieEntry
  youtube : CookieEntry
deriving DecidableEq

/-- `platformCookies[platform]`. -/
def Store.get (st : Store) : Platform → CookieEntry
  | .instagram => st.instagram
  | .twitter => st.twitter
  | .youtube => st.youtube

/-- `platformCookies[platform] = entry`. -/
def Store.set (st : Store) : Platform → CookieEntry → Store
  | .instagram, e => { st with instagram := e }
  | .twitter, e => { st with twitter := e }
  | .youtube, e => { st with youtube := e }

/-- JavaScript truthiness of an optional string (`null` and `''` are falsy). -/
def jsTruthyStr : Option String → Bool
  | none => false
  | some s => !(s == "")

/-- `data.expiresAt && now > data.expiresAt` — the expiry test used in
`downloadWithYtdlp` and `getCookieStatus`.  A `null` or `0` timestamp is
falsy, so such an entry is never considered expired. -/
def entryExpired (e : CookieEntry) (now : Nat) : Bool :=
  match e.expiresAt with
  | none => false
  | some v => !(v == 0) && decide (v < now)

/-- Usability of a credential in the words of the specification
(`material` non-null and `now < expiresAt`); kept separate from the
code-derived `entryExpired` so the two can be compared. -/
def specUsableCredential (e : CookieEntry) (now : Nat) : Bool :=
  jsTruthyStr e.cookies &&
    (match e.expiresAt with
     | none => false
     | some v => decide (now < v))

/-! ### Artifact size validation (inside each download adapter) -/

/-- Outcome of the post-download size check: did it pass, and was the
file deleted as a side effect. -/
structure ValidationOutcome where
  ok : Bool
  deleted : Bool
deriving DecidableEq

/-- Cobalt's suspicious-size floor: `stats.size < 50000` (line 525). -/
def cobaltSuspiciousFloor : Nat := 50000

/-- yt-dlp's suspicious-size floor: `fileSizeKB < 10`, i.e. `size < 10240`
(line 684). -/
def ytdlpSuspiciousFloor : Nat := 10240

/-- The size validation performed by `downloadWithCobalt` after `curl`
exits (lines 505-529): missing file fails without deletion, a 0-byte or
sub-50000-byte file is deleted and fails, anything else passes. -/
def cobaltValidate (present : Bool) (size : Nat) : ValidationOutcome :=
  if !present then ⟨false, false⟩
  else if size == 0 then ⟨false, true⟩
  else if size < cobaltSuspiciousFloor then ⟨false, true⟩
  else ⟨true, false⟩

/-- The size validation performed by `downloadWithYtdlp` after the
process exits (lines 669-692): missing file fails without deletion, a
0-byte or sub-10240-byte file is deleted and fails, anything else
passes. -/
def ytdlpValidate (present : Bool) (size : Nat) : ValidationOutcome :=
  if !present then ⟨false, false⟩
  else if size == 0 then ⟨false, true⟩
  else if size < ytdlpSuspiciousFloor then ⟨false, true⟩
  else ⟨true, false⟩

/-! ### `GET /api/file/:filename` -/

/-- Response of the file-serving endpoint. -/
inductive ServeResult
  | notFound
  | invalid (deleted : Bool)
  | streamed (cleanupDelayMs : Nat)
deriving DecidableEq

/-- `stats.size < 10 * 1024` threshold of the file endpoint (line 1104). -/
def minServeBytes : Nat := 10 * 1024

/-- `app.get('/api/file/:filename')` (lines 1091-1123): 404 when absent,
400 with deletion when empty or below `minServeBytes`, otherwise the
file is streamed and its deletion is scheduled 5000 ms after a
successful transfer. -/
def serveFile (present : Bool) (size : Nat) : ServeResult :=
  if !present then .notFound
  else if size == 0 then .invalid true
  else if size < minServeBytes then .invalid true
  else .streamed 5000

/-! ### Status prober classification -/

/-- Statuses produced by `checkVideoStatus` (plus `unknown` for the
timeout path). -/
inductive VideoStatus
  | priv
  | geoBlocked
  | removed
  | unavailable
  | available
  | unknown
deriving DecidableEq

/-- The classification in the `close` handler of `checkVideoStatus`
(lines 371-401): private-branch phrases are tested first, then the
unavailable branch with its geo/removed refinement. -/
def classifyStatus (errorOutput availability : List Char) (exitCode : Int) : VideoStatus :=
  if strContains errorOutput "Private video" ||
     strContains errorOutput "Sign in to confirm your age" ||
     strContains errorOutput "Video unavailable" ||
     availability == "private".toList ||
     availability == "needs_auth".toList then .priv
  else if strContains errorOutput "is not available" ||
     strContains errorOutput "Video unavailable" ||
     !(exitCode == 0) then
    if strContains errorOutput "not available in your country" then .geoBlocked
    else if strContains errorOutput "removed" then .removed
    else .unavailable
  else .available

/-! ### Cookie submission and status endpoints -/

/-- `COOKIE_EXPIRY_DAYS` (lines 83-87). -/
def COOKIE_EXPIRY_DAYS : Platform → Nat
  | .instagram => 90
  | .twitter => 365
  | .youtube => 180

/-- Milliseconds in a day (`24 * 60 * 60 * 1000`). -/
def dayMs : Nat := 24 * 60 * 60 * 1000

/-- The store mutation of `POST /api/cookies` for a valid platform
(lines 1177-1186): unconditional overwrite with
`expiresAt = now + expiryDays * dayMs`. -/
def submitCookies (st : Store) (p : Platform) (material : String) (now : Nat) : Store :=
  st.set p ⟨some material, some now, some (now + COOKIE_EXPIRY_DAYS p * dayMs)⟩

/-- `Math.ceil (a / b)` on naturals, for `0 < b`. -/
def ceilDiv (a b : Nat) : Nat := (a + b - 1) / b

/-- Shape of a `getCookieStatus` result. -/
inductive StatusView
  | notSynced
  | synced (expired : Bool) (syncedAt expiresAt : Option Nat) (daysRemaining : Option Nat)
deriving DecidableEq

/-- `getCookieStatus` (lines 1126-1141).  `daysRemaining` is `null` when
`expiresAt` is falsy, `0` when expired, otherwise
`Math.ceil((expiresAt - now) / dayMs)`. -/
def getCookieStatus (st : Store) (p : Platform) (now : Nat) : StatusView :=
  let e := st.get p
  if !(jsTruthyStr e.cookies) then .notSynced
  else
    let isExp := entryExpired e now
    let dr : Option Nat :=
      match e.expiresAt with
      | none => none
      | some v => if v == 0 then none else some (ceilDiv (v - now) dayMs)
    .synced isExp e.syncedAt e.expiresAt (if isExp then some 0 else dr)

/-! ### Inline request cookies and yt-dlp cookie selection -/

/-- The fixed 90-day expiry used for cookies arriving inline on a
download request (line 887). -/
def inlineExpiryMs : Nat := 90 * 24 * 60 * 60 * 1000

/-- Lines 880-890 of the download handler: inline cookies are stored for
Instagram or Twitter URLs only (`platform` is `null` otherwise), with a
90-day expiry. -/
def applyInlineCookies (st : Store) (url : List Char) (reqCookies : Option String)
    (now : Nat) : Store :=
  match reqCookies with
  | none => st
  | some c =>
    if c == "" then st
    else if isInstagramUrl url then
      st.set .instagram ⟨some c, some now, some (now + inlineExpiryMs)⟩
    else if isTwitterUrl url then
      st.set .twitter ⟨some c, some now, some (now + inlineExpiryMs)⟩
    else st

/-- The cookie-file selection of `downloadWithYtdlp` (lines 615-651):
which platform's stored credential is materialized into a cookie file
for the extractor invocation, if any. -/
def ytdlpCookieSelection (url : List Char) (st : Store) (now : Nat) : Option Platform :=
  if isInstagramUrl url && jsTruthyStr st.instagram.cookies then
    if entryExpired st.instagram now then none else some .instagram
  else if isTwitterUrl url && jsTruthyStr st.twitter.cookies then
    if entryExpired st.twitter now then none else some .twitter
  else if isYoutubeUrl url && jsTruthyStr st.youtube.cookies then
    if entryExpired st.youtube now then none else some .youtube
  else none

/-- The cookie phase of `downloadWithYtdlp`: selects a credential and
leaves the store untouched (the function never writes
`platformCookies`). -/
def ytdlpCookiePhase (url : List Char) (st : Store) (now : Nat) : Option Platform × Store :=
  (ytdlpCookieSelection url st now, st)

/-! ### The `/api/download` fallback orchestrator -/

/-- Result of one backend attempt as the orchestrator sees it
(`{success, error}`). -/
structure AttemptOutcome where
  success : Bool
  error : String
deriving DecidableEq

/-- The two download backends. -/
inductive BackendCall
  | cobalt
  | ytdlp
deriving DecidableEq

/-- Oracle inputs for one request: the probe result (if the probe runs),
the Firebase refresh reply per platform (`none` = no overwrite), and the
outcomes of the up-to-three backend invocations in program order. -/
structure DownloadEnv where
  probe : VideoStatus
  refresh : Platform → Option CookieEntry
  ytdlpFirstOutcome : AttemptOutcome
  cobaltOutcome : AttemptOutcome
  ytdlpFallbackOutcome : AttemptOutcome

/-- Terminal responses of `POST /api/download`. -/
inductive DlResp
  | ok (method : BackendCall)
  | priv
  | geo
  | gone (s : VideoStatus)
  | needsExt (cobaltErr ytdlpErr : String)
deriving DecidableEq

/-- Line 898: the probe is skipped for Instagram, Twitter, and for
YouTube when YouTube cookies are present. -/
def probeSkipped (st : Store) (url : List Char) : Bool :=
  isInstagramUrl url || isTwitterUrl url ||
    (isYoutubeUrl url && jsTruthyStr st.youtube.cookies)

/-- Lines 935-941: which platform's cookies are refreshed from the
backend on the skip path. -/
def refreshPlatform (url : List Char) : Option Platform :=
  if isInstagramUrl url then some .instagram
  else if isTwitterUrl url then some .twitter
  else if isYoutubeUrl url then some .youtube
  else none

/-- Apply the Firebase refresh on the skip path: `fetchCookiesFromBackend`
overwrites the entry only when the backend answers with cookies. -/
def applyRefresh (st : Store) (url : List Char) (env : DownloadEnv) : Store :=
  match refreshPlatform url with
  | none => st
  | some p =>
    match env.refresh p with
    | none => st
    | some e => st.set p e

/-- Line 947: yt-dlp is tried first exactly when the URL is Instagram
with stored Instagram cookie material present, or Twitter with stored
Twitter cookie material present (expiry is not consulted here). -/
def credFirstDecision (st : Store) (url : List Char) : Bool :=
  (isInstagramUrl url && jsTruthyStr st.instagram.cookies) ||
  (isTwitterUrl url && jsTruthyStr st.twitter.cookies)

/-- Lines 1000-1087: the Cobalt attempt followed, on failure, by the
yt-dlp fallback; `pre` records backend calls already made. -/
def cobaltPhase (env : DownloadEnv) (pre : List BackendCall) : DlResp × List BackendCall :=
  if env.cobaltOutcome.success then (.ok .cobalt, pre ++ [.cobalt])
  else if env.ytdlpFallbackOutcome.success then (.ok .ytdlp, pre ++ [.cobalt, .ytdlp])
  else (.needsExt env.cobaltOutcome.error env.ytdlpFallbackOutcome.error,
        pre ++ [.cobalt, .ytdlp])

/-- Lines 945-1087: the adapter phase, starting with the credential-first
yt-dlp attempt when `credFirstDecision` holds, then falling through to
the Cobalt phase. -/
def adapterPhase (st : Store) (url : List Char) (env : DownloadEnv) :
    DlResp × List BackendCall :=
  if credFirstDecision st url then
    if env.ytdlpFirstOutcome.success then (.ok .ytdlp, [.ytdlp])
    else cobaltPhase env [.ytdlp]
  else cobaltPhase env []

/-- The store in effect when the adapter phase begins: inline cookies
applied, then (on the probe-skip path) the Firebase refresh. -/
def downloadPrelude (st0 : Store) (url : List Char) (reqCookies : Option String)
    (now : Nat) (env : DownloadEnv) : Store :=
  let st1 := applyInlineCookies st0 url reqCookies now
  if probeSkipped st1 url then applyRefresh st1 url env else st1

/-- The `POST /api/download` handler (lines 854-1088): inline cookies,
probe-or-skip, early terminal returns on bad probe statuses, then the
adapter phase.  Returns the response and the list of backend calls
made, in order. -/
def handleDownload (st0 : Store) (url : List Char) (reqCookies : Option String)
    (now : Nat) (env : DownloadEnv) : DlResp × List BackendCall :=
  if probeSkipped (applyInlineCookies st0 url reqCookies now) url then
    adapterPhase (downloadPrelude st0 url reqCookies now env) url env
  else
    match env.probe with
    | .priv => (.priv, [])
    | .geoBlocked => (.geo, [])
    | .removed => (.gone .removed, [])
    | .unavailable => (.gone .unavailable, [])
    | _ => adapterPhase (downloadPrelude st0 url reqCookies now env) url env

/-! ### Concrete instances used in counterexamples and witnesses -/

/-- Store with Instagram cookie material present. -/
def c1Store : Store :=
  { instagram := ⟨some "sessionid=abc", some 0, some 999999999999999⟩,
    twitter := emptyEntry, youtube := emptyEntry }

/-- An Instagram post URL. -/
def c1Url : List Char := "https://instagram.com/p/1".toList

/-- Environment where the probe would say available, refresh returns
nothing, and all three backend attempts fail. -/
def c1Env : DownloadEnv :=
  { probe := .available, refresh := fun _ => none,
    ytdlpFirstOutcome := ⟨false, "ytdlp error"⟩,
    cobaltOutcome := ⟨false, "cobalt error"⟩,
    ytdlpFallbackOutcome := ⟨false, "ytdlp error again"⟩ }

/-- Store with a usable (non-expired) YouTube credential. -/
def c2Store : Store :=
  { instagram := emptyEntry, twitter := emptyEntry,
    youtube := ⟨some "SID=tok", some 1000, some 2000000⟩ }

/-- A YouTube watch URL. -/
def c2Url : List Char := "https://youtube.com/watch?v=abc".toList

/-- Environment where Cobalt succeeds. -/
def c2Env : DownloadEnv :=
  { probe := .available, refresh := fun _ => none,
    ytdlpFirstOutcome := ⟨false, "e1"⟩,
    cobaltOutcome := ⟨true, ""⟩,
    ytdlpFallbackOutcome := ⟨false, "e2"⟩ }

/-- A URL with no recognised platform substring. -/
def c3Url : List Char := "https://vimeo.com/12345".toList

/-- Environment whose probe reports private. -/
def c3Env : DownloadEnv :=
  { probe := .priv, refresh := fun _ => none,
    ytdlpFirstOutcome := ⟨true, ""⟩,
    cobaltOutcome := ⟨true, ""⟩,
    ytdlpFallbackOutcome := ⟨true, ""⟩ }

/-- Store whose Instagram credential expires exactly at time 1000. -/
def c5Store : Store :=
  { instagram := ⟨some "sessionid=a", some 0, some 1000⟩,
    twitter := emptyEntry, youtube := emptyEntry }

/-- Store whose Twitter credential is strictly expired at time 10. -/
def c5Store2 : Store :=
  { instagram := emptyEntry,
    twitter := ⟨some "auth=1", some 0, some 5⟩, youtube := emptyEntry }

/-- The empty cookie store. -/
def emptyStore : Store :=
  { instagram := emptyEntry, twitter := emptyEntry, youtube := emptyEntry }

/-- A URL containing both the Instagram and the Twitter substring. -/
def c9Url : List Char := "https://instagram.com/a/twitter.com".toList

/-! ## Helper lemmas -/

/-- Reading back a freshly written store entry. -/
theorem Store.get_set_same (st : Store) (p : Platform) (e : CookieEntry) :
    (st.set p e).get p = e := by
  cases p <;> rfl

/-- Any platform selected by `ytdlpCookieSelection` passed the
non-expiry test. -/
theorem selection_not_expired (url : List Char) (st : Store) (now : Nat) (q : Platform)
    (h : ytdlpCookieSelection url st now = some q) :
    entryExpired (st.get q) now = false := by
  unfold ytdlpCookieSelection at h
  split_ifs at h <;> simp_all [Store.get] <;> subst h <;> simp_all

/-- When Cobalt succeeds the Cobalt phase makes exactly one more call. -/
theorem cobaltPhase_calls_of_success (env : DownloadEnv) (pre : List BackendCall)
    (h : env.cobaltOutcome.success = true) :
    (cobaltPhase env pre).2 = pre ++ [.cobalt] := by
  simp [cobaltPhase, h]

/-- When Cobalt fails the Cobalt phase calls Cobalt and then yt-dlp. -/
theorem cobaltPhase_calls_of_failure (env : DownloadEnv) (pre : List BackendCall)
    (h : env.cobaltOutcome.success = false) :
    (cobaltPhase env pre).2 = pre ++ [.cobalt, .ytdlp] := by
  unfold cobaltPhase
  split_ifs <;> simp_all

/-- Exhaustive enumeration of the call sequences the adapter phase can
produce. -/
theorem adapterPhase_calls (st : Store) (url : List Char) (env : DownloadEnv) :
    (credFirstDecision st url = true ∧ env.ytdlpFirstOutcome.success = true ∧
      (adapterPhase st url env).2 = [.ytdlp]) ∨
    (credFirstDecision st url = true ∧ env.ytdlpFirstOutcome.success = false ∧
      env.cobaltOutcome.success = true ∧
      (adapterPhase st url env).2 = [.ytdlp, .cobalt]) ∨
    (credFirstDecision st url = true ∧ env.ytdlpFirstOutcome.success = false ∧
      env.cobaltOutcome.success = false ∧
      (adapterPhase st url env).2 = [.ytdlp, .cobalt, .ytdlp]) ∨
    (credFirstDecision st url = false ∧ env.cobaltOutcome.success = true ∧
      (adapterPhase st url env).2 = [.cobalt]) ∨
    (credFirstDecision st url = false ∧ env.cobaltOutcome.success = false ∧
      (adapterPhase st url env).2 = [.cobalt, .ytdlp]) := by
  unfold adapterPhase cobaltPhase
  cases hcf : credFirstDecision st url <;>
    cases h1 : env.ytdlpFirstOutcome.success <;>
    cases h2 : env.cobaltOutcome.success <;>
    cases h3 : env.ytdlpFallbackOutcome.success <;>
    simp [hcf, h1, h2, h3]

/-- The first backend called by the adapter phase is yt-dlp exactly when
the credential-first test holds. -/
theorem adapterPhase_head (st : Store) (url : List Char) (env : DownloadEnv) :
    (adapterPhase st url env).2.head? =
      some (if credFirstDecision st url then BackendCall.ytdlp else BackendCall.cobalt) := by
  rcases adapterPhase_calls st url env with
    ⟨hcf, _, hc⟩ | ⟨hcf, _, _, hc⟩ | ⟨hcf, _, _, hc⟩ | ⟨hcf, _, hc⟩ | ⟨hcf, _, hc⟩ <;>
    rw [hc, hcf] <;> rfl

/-- The download handler's backend calls are empty (early probe return)
or exactly those of the adapter phase on the prelude store. -/
theorem handleDownload_calls (st0 : Store) (url : List Char) (rc : Option String)
    (now : Nat) (env : DownloadEnv) :
    (handleDownload st0 url rc now env).2 = [] ∨
    (handleDownload st0 url rc now env).2 =
      (adapterPhase (downloadPrelude st0 url rc now env) url env).2 := by
  unfold handleDownload
  split
  · exact Or.inr rfl
  · split
    · exact Or.inl rfl
    · exact Or.inl rfl
    · exact Or.inl rfl
    · exact Or.inl rfl
    · exact Or.inr rfl

/-- With an available probe result the handler is exactly the adapter
phase on the prelude store. -/
theorem handleDownload_eq_adapterPhase (st0 : Store) (url : List Char)
    (rc : Option String) (now : Nat) (env : DownloadEnv)
    (hp : env.probe = VideoStatus.available) :
    handleDownload st0 url rc now env =
      adapterPhase (downloadPrelude st0 url rc now env) url env := by
  unfold handleDownload
  split
  · rfl
  · rw [hp]

/-- `Math.ceil (x / dayMs)` bounds for `x` between `(D-1)` and `D`
days. -/
theorem ceilDiv_dayMs_bounds (D x : Nat) (hD : 1 ≤ D)
    (hlo : (D - 1) * dayMs ≤ x) (hhi : x ≤ D * dayMs) :
    D - 1 ≤ ceilDiv x dayMs ∧ ceilDiv x dayMs ≤ D := by
  unfold ceilDiv dayMs at *
  omega

/-! ## Claim theorems -/

/-- Claim C1, counterexample: for an Instagram request with stored
Instagram cookies, when the credential-first yt-dlp attempt, the Cobalt
attempt and the yt-dlp fallback all fail, the handler makes three
backend calls and invokes yt-dlp twice with identical parameters — so
"at most two backend calls, never re-invoking the same adapter" is
false. -/
theorem C1_counterexample :
    (handleDownload c1Store c1Url none 1000 c1Env).2 = [.ytdlp, .cobalt, .ytdlp] ∧
    2 < (handleDownload c1Store c1Url none 1000 c1Env).2.length ∧
    (handleDownload c1Store c1Url none 1000 c1Env).2.count .ytdlp = 2 := by
  decide

/-- Claim C1 as amended: every request makes at most three backend
calls — Cobalt at most once and yt-dlp at most twice — and yt-dlp is
invoked a second time (with identical parameters) only when a
credential-first yt-dlp attempt and the Cobalt attempt both failed. -/
theorem C1_theorem (st0 : Store) (url : List Char) (rc : Option String)
    (now : Nat) (env : DownloadEnv) :
    (handleDownload st0 url rc now env).2.count .cobalt ≤ 1 ∧
    (handleDownload st0 url rc now env).2.count .ytdlp ≤ 2 ∧
    (handleDownload st0 url rc now env).2.length ≤ 3 ∧
    ((handleDownload st0 url rc now env).2.count .ytdlp = 2 →
      env.ytdlpFirstOutcome.success = false ∧ env.cobaltOutcome.success = false) := by
  rcases handleDownload_calls st0 url rc now env with h | h
  · rw [h]
    exact ⟨by decide, by decide, by decide, fun hc => absurd hc (by decide)⟩
  · rw [h]
    rcases adapterPhase_calls (downloadPrelude st0 url rc now env) url env with
      ⟨_, _, hc⟩ | ⟨_, h1, h2, hc⟩ | ⟨_, h1, h2, hc⟩ | ⟨_, _, hc⟩ | ⟨_, _, hc⟩ <;>
      rw [hc]
    · exact ⟨by decide, by decide, by decide, fun hcnt => absurd hcnt (by decide)⟩
    · exact ⟨by decide, by decide, by decide, fun hcnt => absurd hcnt (by decide)⟩
    · exact ⟨by decide, by decide, by decide, fun _ => ⟨h1, h2⟩⟩
    · exact ⟨by decide, by decide, by decide, fun hcnt => absurd hcnt (by decide)⟩
    · exact ⟨by decide, by decide, by decide, fun hcnt => absurd hcnt (by decide)⟩

/-- Claim C1 witness: the amended bound's implication discharged at the
concrete triple-failure request. -/
theorem C1_witness :
    c1Env.ytdlpFirstOutcome.success = false ∧ c1Env.cobaltOutcome.success = false :=
  (C1_theorem c1Store c1Url none 1000 c1Env).2.2.2 (by decide)

/-- Claim C2, counterexample: a YouTube request whose platform holds a
usable (present, non-expired) credential still tries Cobalt (Adapter A)
first, so the try-order is not credential-driven for YouTube. -/
theorem C2_counterexample :
    specUsableCredential (c2Store.get .youtube) 5000 = true ∧
    detectPlatformFromUrl c2Url = "youtube" ∧
    (handleDownload c2Store c2Url none 5000 c2Env).2.head? = some .cobalt := by
  decide

/-- Claim C2 as amended: whenever the adapter phase is reached, the
first backend tried is yt-dlp exactly when the URL is Instagram with
stored Instagram cookie material present, or Twitter with stored
Twitter cookie material present (expiry is not consulted); in every
other case — including YouTube with a usable credential — Cobalt is
tried first. -/
theorem C2_theorem (st0 : Store) (url : List Char) (rc : Option String)
    (now : Nat) (env : DownloadEnv) (hp : env.probe = VideoStatus.available) :
    (handleDownload st0 url rc now env).2.head? =
      some (if credFirstDecision (downloadPrelude st0 url rc now env) url then
        BackendCall.ytdlp else BackendCall.cobalt) ∧
    credFirstDecision (downloadPrelude st0 url rc now env) url =
      ((isInstagramUrl url &&
          jsTruthyStr (downloadPrelude st0 url rc now env).instagram.cookies) ||
       (isTwitterUrl url &&
          jsTruthyStr (downloadPrelude st0 url rc now env).twitter.cookies)) := by
  refine ⟨?_, rfl⟩
  rw [handleDownload_eq_adapterPhase st0 url rc now env hp]
  exact adapterPhase_head _ _ _

/-- Claim C2 witness: the amended theorem at the concrete YouTube
request. -/
theorem C2_witness :
    (handleDownload c2Store c2Url none 5000 c2Env).2.head? =
      some (if credFirstDecision (downloadPrelude c2Store c2Url none 5000 c2Env) c2Url
        then BackendCall.ytdlp else BackendCall.cobalt) :=
  (C2_theorem c2Store c2Url none 5000 c2Env rfl).1

/-- Claim C3: when the probe runs (the skip condition is false) and
reports private, geo-blocked, removed or unavailable, the handler
returns the corresponding terminal variant with an empty backend-call
list — no download adapter is invoked. -/
theorem C3_theorem (st0 : Store) (url : List Char) (rc : Option String)
    (now : Nat) (env : DownloadEnv)
    (hskip : probeSkipped (applyInlineCookies st0 url rc now) url = false) :
    (env.probe = .priv → handleDownload st0 url rc now env = (.priv, [])) ∧
    (env.probe = .geoBlocked → handleDownload st0 url rc now env = (.geo, [])) ∧
    (env.probe = .removed →
      handleDownload st0 url rc now env = (.gone .removed, [])) ∧
    (env.probe = .unavailable →
      handleDownload st0 url rc now env = (.gone .unavailable, [])) := by
  refine ⟨?_, ?_, ?_, ?_⟩ <;> intro hp <;>
    simp [handleDownload, hskip, hp]

/-- Claim C3 witness: a probed URL reported private returns the private
variant with no backend calls. -/
theorem C3_witness :
    handleDownload emptyStore c3Url none 0 c3Env = (.priv, []) :=
  (C3_theorem emptyStore c3Url none 0 c3Env (by decide)).1 rfl

/-- Claim C7: submitting credential C2 after C1 for the same platform
leaves only C2's material and expiry in effect (last-writer-wins, no
merge), and the status view within a day of submission reports the
entry as synced and unexpired with `daysRemaining` within one of the
platform's configured expiry window (90/365/180 days). -/
theorem C7_theorem (st : Store) (p : Platform) (m1 m2 : String) (n1 n2 n3 : Nat)
    (hm : m2 ≠ "") (h1 : n2 ≤ n3) (h2 : n3 ≤ n2 + dayMs) :
    (submitCookies (submitCookies st p m1 n1) p m2 n2).get p =
      ⟨some m2, some n2, some (n2 + COOKIE_EXPIRY_DAYS p * dayMs)⟩ ∧
    ∃ dr, getCookieStatus (submitCookies (submitCookies st p m1 n1) p m2 n2) p n3 =
        .synced false (some n2) (some (n2 + COOKIE_EXPIRY_DAYS p * dayMs)) (some dr) ∧
      COOKIE_EXPIRY_DAYS p - 1 ≤ dr ∧ dr ≤ COOKIE_EXPIRY_DAYS p := by
  have hD : 1 ≤ COOKIE_EXPIRY_DAYS p := by cases p <;> decide
  have hday : 0 < dayMs := by decide
  have hdayle : dayMs ≤ COOKIE_EXPIRY_DAYS p * dayMs :=
    Nat.le_mul_of_pos_left dayMs hD
  have hget : (submitCookies (submitCookies st p m1 n1) p m2 n2).get p =
      ⟨some m2, some n2, some (n2 + COOKIE_EXPIRY_DAYS p * dayMs)⟩ :=
    Store.get_set_same _ p _
  refine ⟨hget, ?_⟩
  have hvne : (n2 + COOKIE_EXPIRY_DAYS p * dayMs) ≠ 0 := by omega
  have hnv : ¬ (n2 + COOKIE_EXPIRY_DAYS p * dayMs < n3) := by omega
  refine ⟨ceilDiv ((n2 + COOKIE_EXPIRY_DAYS p * dayMs) - n3) dayMs, ?_, ?_⟩
  · have hm' : (m2 == "") = false := by simpa using hm
    simp only [getCookieStatus, hget, jsTruthyStr, hm', Bool.not_false,
      Bool.not_true, Bool.false_eq_true, if_false, entryExpired]
    simp [hvne, hnv]
  · have hsub : (COOKIE_EXPIRY_DAYS p - 1) * dayMs =
        COOKIE_EXPIRY_DAYS p * dayMs - dayMs := by
      rw [Nat.sub_one_mul]
    apply ceilDiv_dayMs_bounds _ _ hD <;> omega

/-- Claim C7 witness: two successive Instagram submissions queried at
the moment of the second submission. -/
theorem C7_witness :
    (submitCookies (submitCookies emptyStore .instagram "a=1" 0) .instagram
        "b=2" 100).get .instagram =
      ⟨some "b=2", some 100, some (100 + COOKIE_EXPIRY_DAYS .instagram * dayMs)⟩ ∧
    ∃ dr, getCookieStatus
        (submitCookies (submitCookies emptyStore .instagram "a=1" 0) .instagram
          "b=2" 100) .instagram 100 =
        .synced false (some 100) (some (100 + COOKIE_EXPIRY_DAYS .instagram * dayMs))
          (some dr) ∧
      COOKIE_EXPIRY_DAYS .instagram - 1 ≤ dr ∧ dr ≤ COOKIE_EXPIRY_DAYS .instagram :=
  C7_theorem emptyStore .instagram "a=1" "b=2" 0 100 100 (by decide) (by decide)
    (by decide)

/-- Claim C4, counterexample: a 20000-byte artifact is rejected (and
deleted) by Cobalt's validation but accepted by yt-dlp's, so the
validation is not invoked with identical thresholds after every
backend's download. -/
theorem C4_counterexample :
    cobaltValidate true 20000 = ⟨false, true⟩ ∧
    ytdlpValidate true 20000 = ⟨true, false⟩ ∧
    cobaltValidate true 20000 ≠ ytdlpValidate true 20000 := by
  decide

/-- Claim C4 as amended: each backend's validation fails when the file
is absent, deletes and fails on a 0-byte file and on any file below
that backend's own suspicious floor (50000 bytes for Cobalt, 10240
bytes for yt-dlp), and accepts files at or above that backend's floor;
the two floors differ between the backends. -/
theorem C4_theorem (size : Nat) :
    cobaltValidate false size = ⟨false, false⟩ ∧
    ytdlpValidate false size = ⟨false, false⟩ ∧
    cobaltValidate true 0 = ⟨false, true⟩ ∧
    ytdlpValidate true 0 = ⟨false, true⟩ ∧
    (size < cobaltSuspiciousFloor → cobaltValidate true size = ⟨false, true⟩) ∧
    (size < ytdlpSuspiciousFloor → ytdlpValidate true size = ⟨false, true⟩) ∧
    (cobaltSuspiciousFloor ≤ size → cobaltValidate true size = ⟨true, false⟩) ∧
    (ytdlpSuspiciousFloor ≤ size → ytdlpValidate true size = ⟨true, false⟩) ∧
    cobaltSuspiciousFloor ≠ ytdlpSuspiciousFloor := by
  refine ⟨rfl, rfl, rfl, rfl, ?_, ?_, ?_, ?_, by decide⟩ <;>
    intro h <;>
    simp only [cobaltValidate, ytdlpValidate, cobaltSuspiciousFloor,
      ytdlpSuspiciousFloor, Bool.not_true, Bool.false_eq_true, if_false] <;>
    split_ifs with h1 h2 <;>
    simp_all [cobaltSuspiciousFloor, ytdlpSuspiciousFloor] <;>
    omega

/-- Claim C4 witness: the amended theorem evaluated at concrete sizes. -/
theorem C4_witness :
    cobaltValidate true 60000 = ⟨true, false⟩ ∧
    ytdlpValidate true 5000 = ⟨false, true⟩ :=
  ⟨(C4_theorem 60000).2.2.2.2.2.2.1 (by decide),
   (C4_theorem 5000).2.2.2.2.2.1 (by decide)⟩

/-- Claim C8: the file endpoint returns 404 when the file is absent,
400 with deletion when the size is 0 or below the minimum, and
otherwise streams the file and schedules deletion 5000 ms after the
transfer completes. -/
theorem C8_theorem (present : Bool) (size : Nat) :
    (present = false → serveFile present size = .notFound) ∧
    (present = true → size = 0 ∨ size < minServeBytes →
      serveFile present size = .invalid true) ∧
    (present = true → minServeBytes ≤ size →
      serveFile present size = .streamed 5000) := by
  refine ⟨?_, ?_, ?_⟩
  · intro h; subst h; rfl
  · intro h hs; subst h
    simp only [serveFile, Bool.not_true, Bool.false_eq_true, if_false]
    split_ifs with h1 h2 <;> simp_all [minServeBytes] <;> omega
  · intro h hs; subst h
    simp only [serveFile, Bool.not_true, Bool.false_eq_true, if_false]
    split_ifs with h1 h2 <;> simp_all [minServeBytes] <;> omega

/-- Claim C8 witness: concrete absent, undersized and valid files. -/
theorem C8_witness :
    serveFile false 0 = .notFound ∧
    serveFile true 2048 = .invalid true ∧
    serveFile true 20480 = .streamed 5000 :=
  ⟨(C8_theorem false 0).1 rfl,
   (C8_theorem true 2048).2.1 rfl (Or.inr (by decide)),
   (C8_theorem true 20480).2.2 rfl (by decide)⟩

/-- Claim C10: any probe whose diagnostic stream contains
"Video unavailable" is classified as private, regardless of the
availability line and the exit code, because the private branch is
tested first. -/
theorem C10_theorem (errorOutput availability : List Char) (exitCode : Int)
    (h : strContains errorOutput "Video unavailable" = true) :
    classifyStatus errorOutput availability exitCode = .priv := by
  unfold classifyStatus
  simp [h]

/-- Claim C10 witness: a concrete diagnostic stream containing
"Video unavailable" and no private-video phrase. -/
theorem C10_witness :
    classifyStatus ("ERROR: Video unavailable".toList) ("".toList) 1 = .priv :=
  C10_theorem _ _ _ (by decide)

/-- Claim C5, counterexample: an Instagram credential with
`expiresAt = 1000` is still materialized into a cookie file at
`now = 1000`, so a credential with `expiresAt <= now` can be selected
(the code tests `now > expiresAt`, not `now >= expiresAt`). -/
theorem C5_counterexample :
    (c5Store.get .instagram).expiresAt = some 1000 ∧
    ytdlpCookieSelection ("https://instagram.com/p/1".toList) c5Store 1000 =
      some .instagram := by
  decide

/-- Claim C5 as amended: a stored credential with a nonzero `expiresAt`
strictly earlier than `now` is never selected for the extractor
invocation (never materialized into a cookie file); the cookie phase
leaves the store unchanged, so the expired credential stays present; a
credential whose `expiresAt` equals `now` exactly is still selected,
and a zero or absent `expiresAt` is treated as non-expiring. -/
theorem C5_theorem (url : List Char) (st : Store) (now : Nat) (p : Platform) (v : Nat)
    (hv : (st.get p).expiresAt = some v) (h0 : v ≠ 0) (hlt : v < now) :
    ytdlpCookieSelection url st now ≠ some p ∧
    (ytdlpCookiePhase url st now).2 = st := by
  refine ⟨?_, rfl⟩
  intro h
  have hexp := selection_not_expired url st now p h
  rw [entryExpired, hv] at hexp
  simp [h0, hlt] at hexp

/-- Claim C5 witness: the amended theorem at a Twitter credential that
expired at time 5, consulted at time 10. -/
theorem C5_witness :
    ytdlpCookieSelection ("https://twitter.com/s/1".toList) c5Store2 10 ≠
      some .twitter ∧
    (ytdlpCookiePhase ("https://twitter.com/s/1".toList) c5Store2 10).2 = c5Store2 :=
  C5_theorem _ c5Store2 10 .twitter 5 rfl (by decide) (by decide)

/-- Claim C6, counterexample: inline cookies on a YouTube request are
ignored — the store is left unchanged, so they do not overwrite the
Credential Store entry for youtube. -/
theorem C6_counterexample :
    isYoutubeUrl ("https://youtube.com/watch?v=a".toList) = true ∧
    applyInlineCookies emptyStore ("https://youtube.com/watch?v=a".toList)
      (some "SID=x") 1000 = emptyStore := by
  decide

/-- Claim C6 as amended: inline request cookies overwrite the store
entry, with a 90-day expiry, only for Instagram URLs and for Twitter
URLs that are not Instagram; for every other URL — including YouTube —
the store is unchanged.  The handler applies this before any probing or
download attempt (`handleDownload` consumes the store only through
`applyInlineCookies`). -/
theorem C6_theorem (st : Store) (url : List Char) (c : String) (now : Nat)
    (hc : c ≠ "") :
    (isInstagramUrl url = true →
      applyInlineCookies st url (some c) now =
        st.set .instagram ⟨some c, some now, some (now + inlineExpiryMs)⟩) ∧
    (isInstagramUrl url = false → isTwitterUrl url = true →
      applyInlineCookies st url (some c) now =
        st.set .twitter ⟨some c, some now, some (now + inlineExpiryMs)⟩) ∧
    (isInstagramUrl url = false → isTwitterUrl url = false →
      applyInlineCookies st url (some c) now = st) ∧
    inlineExpiryMs = 90 * dayMs := by
  have hc' : (c == "") = false := by simpa using hc
  refine ⟨?_, ?_, ?_, by decide⟩
  · intro h; simp [applyInlineCookies, hc', h]
  · intro h1 h2; simp [applyInlineCookies, hc', h1, h2]
  · intro h1 h2; simp [applyInlineCookies, hc', h1, h2]

/-- Claim C6 witness: the amended theorem at a concrete Instagram
request carrying inline cookies. -/
theorem C6_witness :
    applyInlineCookies emptyStore ("https://instagram.com/p/2".toList)
      (some "sessionid=z") 500 =
      emptyStore.set .instagram ⟨some "sessionid=z", some 500, some (500 + inlineExpiryMs)⟩ :=
  (C6_theorem emptyStore _ "sessionid=z" 500 (by decide)).1 (by decide)

/-- Claim C9, counterexample: a URL containing "twitter.com" is not
routed as Twitter when it also contains "instagram.com" — detection
checks the platform substrings in a fixed precedence order, so the
claim's unconditional routing statements are false on overlapping
URLs. -/
theorem C9_counterexample :
    strContains c9Url "twitter.com" = true ∧
    detectPlatformFromUrl c9Url = "instagram" := by
  decide

/-- Claim C9 as amended: platform detection is substring-based with
precedence instagram, youtube, twitter, tiktok, linkedin: a URL
containing "instagram.com" is routed as Instagram; one containing a
YouTube substring but not "instagram.com" as YouTube; one containing
"twitter.com" or "x.com" but no Instagram or YouTube substring as
Twitter; and a URL containing none of the known platform substrings is
detected as unknown.  The same substring tests (`isInstagramUrl`,
`isTwitterUrl`, `isYoutubeUrl`) drive cookie selection and probe-skip
decisions. -/
theorem C9_theorem (url : List Char) :
    (strContains url "instagram.com" = true →
      detectPlatformFromUrl url = "instagram") ∧
    (strContains url "instagram.com" = false →
      (strContains url "youtube.com" || strContains url "youtu.be") = true →
      detectPlatformFromUrl url = "youtube") ∧
    (strContains url "instagram.com" = false →
      (strContains url "youtube.com" || strContains url "youtu.be") = false →
      (strContains url "twitter.com" || strContains url "x.com") = true →
      detectPlatformFromUrl url = "twitter") ∧
    (strContains url "instagram.com" = false →
      strContains url "youtube.com" = false → strContains url "youtu.be" = false →
      strContains url "twitter.com" = false → strContains url "x.com" = false →
      strContains url "tiktok.com" = false → strContains url "linkedin.com" = false →
      detectPlatformFromUrl url = "unknown") ∧
    isInstagramUrl url = strContains url "instagram.com" ∧
    isTwitterUrl url = (strContains url "twitter.com" || strContains url "x.com") ∧
    isYoutubeUrl url = (strContains url "youtube.com" || strContains url "youtu.be") := by
  refine ⟨?_, ?_, ?_, ?_, rfl, rfl, rfl⟩ <;> intros <;>
    simp_all [detectPlatformFromUrl]

/-- Claim C9 witness: the amended theorem at concrete URLs for the
Twitter and unknown branches. -/
theorem C9_witness :
    detectPlatformFromUrl ("https://x.com/user/status/1".toList) = "twitter" ∧
    detectPlatformFromUrl ("https://vimeo.com/9".toList) = "unknown" :=
  ⟨(C9_theorem ("https://x.com/user/status/1".toList)).2.2.1
      (by decide) (by decide) (by decide),
   (C9_theorem ("https://vimeo.com/9".toList)).2.2.2.1
      (by decide) (by decide) (by decide) (by decide) (by decide) (by decide) (by decide)⟩

end UVD
